import Mathlib

/-!
Shallow embedding of the julee knowledge service.

The definitions below are translated from the Python source of the repository:
`usecases.py` (the use-case layer), `webclient_repo.py` (the HTTP callback
client), `repositories.py` (port contracts and the `FileAnalysisResult`
enum), `domain.py` (the dataclasses) and `tests/mock_repos.py` (the
in-memory chunker `MockChunkingRepository.chunk_resource`).

The `execute` method of each use case is embedded as a pure function.  The
repository ports it calls are passed in as function arguments, and every
outbound call the method makes (repository writes, task-dispatch enqueues,
notifications) is recorded in an explicit result record, in the order the
source makes them.  Python exceptions are modelled by the `PyResult.raised`
constructor carrying the exception kind and, where the source formats one,
the message string.  Python truthiness of optional strings and lists
(`None` and empty are falsy) is modelled by `optStrTruthy` / `optListTruthy`.
-/

namespace KnowledgeService

/-- `repositories.FileAnalysisResult` (virus scan outcome). -/
inductive FileAnalysisResult where
  | CLEAN
  | INFECTED
  | ERROR
  deriving DecidableEq, Repr

/-- `domain.ResourceType`. -/
structure ResourceType where
  id : String
  name : String
  tooltip : String
  deriving DecidableEq, Repr

/-- `domain.Collection`. -/
structure Collection where
  id : String
  subscription_id : String
  resource_types : List ResourceType
  name : String := ""
  description : Option String := none
  deriving DecidableEq, Repr

/-- `domain.Resource`.  File bytes are modelled as `List Nat`. -/
structure Resource where
  id : String
  collection_id : String
  resource_type_id : Option String
  name : Option String
  file_name : String
  file_type : Option String
  file : Option (List Nat)
  metadata_file : Option (List Nat) := none
  callback_urls : Option (List String) := none
  markdown_content : Option String := none
  status : String := "pending"
  deriving DecidableEq, Repr

/-- `domain.Subscription`. -/
structure Subscription where
  id : String
  name : String
  is_active : Bool
  resource_types : List ResourceType
  collections : List Collection
  organisation_id : Option Nat := none
  user_id : Option Nat := none
  deriving DecidableEq, Repr

/-- `domain.SectionHeader`. -/
structure SectionHeader where
  id : String
  heading : String
  deriving DecidableEq, Repr

/-- `domain.ResourceChunk`.  Float scores and embeddings are modelled as
rationals; the `sequence` field is a `Nat` because every assignment in the
source is a non-negative `enumerate` index. -/
structure ResourceChunk where
  id : String
  resource_id : String
  text : String
  sequence : Nat
  extract : String
  metadata : Option (List (String × String)) := none
  path : Option (List SectionHeader) := none
  preamble : Option String := none
  postamble : Option String := none
  score : Option Rat := none
  deriving DecidableEq, Repr

/-- `domain.SearchRequest` (timestamps modelled as `Nat`). -/
structure SearchRequest where
  id : String
  query : String
  collection_id : String
  filters : Option (List (String × String)) := none
  resource_ids : Option (List String) := none
  callback_urls : Option (List String) := none
  webhook_urls : Option (List String) := none
  created_at : Nat := 0
  status : String := "pending"
  embedding : Option (List Rat) := none
  deriving DecidableEq, Repr

/-- Python truthiness of an `Optional[str]`: `None` and `""` are falsy. -/
def optStrTruthy : Option String → Bool
  | none => false
  | some s => !(s == "")

/-- Python truthiness of an `Optional[List[...]]`: `None` and `[]` are falsy. -/
def optListTruthy {α : Type} : Option (List α) → Bool
  | none => false
  | some l => !l.isEmpty

/-- The kinds of Python exception the embedded use cases raise. -/
inductive PyError where
  | exn (msg : String)
  | valueError (msg : String)
  | assertionError
  | typeError
  deriving DecidableEq, Repr

/-- Outcome of a Python call: a returned value or a raised exception. -/
inductive PyResult (α : Type) where
  | ok (a : α)
  | raised (e : PyError)
  deriving DecidableEq, Repr

/-! ## `InitiateProcessingOfNewResource.execute` (`usecases.py`) -/

/-- Every observable effect of one `InitiateProcessingOfNewResource.execute`
call: its outcome plus the arguments of each outbound repository call, in
source order. -/
structure InitiateProcessingResult where
  outcome : PyResult Unit
  quarantineCalls : List String
  updateCalls : List Resource
  quarantineNotifications : List String
  setFileTypeCalls : List (String × Option String)
  initiateResourceGraphCalls : List String
  deriving DecidableEq, Repr

/-- `InitiateProcessingOfNewResource.execute`, with the resource lookup result
and the file-manager port behaviours passed in.  `stored` is what
`get_resource_by_id resource_id` returns. -/
def initiateProcessingOfNewResource
    (scan_for_viruses : Resource → FileAnalysisResult)
    (detect_file_type : Resource → Option String)
    (validate_file_format : Resource → Bool)
    (resource_id : String)
    (stored : Option Resource) : InitiateProcessingResult :=
  match stored with
  | none =>
      { outcome := .raised (.exn
          ("Unable to initiate processing of resource (not found " ++ resource_id ++ ")")),
        quarantineCalls := [], updateCalls := [], quarantineNotifications := [],
        setFileTypeCalls := [], initiateResourceGraphCalls := [] }
  | some resource =>
      match resource.file with
      | none =>
          -- `len(resource.file)` with `file is None` raises TypeError
          { outcome := .raised .typeError,
            quarantineCalls := [], updateCalls := [], quarantineNotifications := [],
            setFileTypeCalls := [], initiateResourceGraphCalls := [] }
      | some f =>
          if f.length = 0 then
            -- `assert len(resource.file) > 0`
            { outcome := .raised .assertionError,
              quarantineCalls := [], updateCalls := [], quarantineNotifications := [],
              setFileTypeCalls := [], initiateResourceGraphCalls := [] }
          else if scan_for_viruses resource = .INFECTED then
            { outcome := .raised (.exn ("Resource " ++ resource_id ++ " failed virus scan")),
              quarantineCalls := [resource.id],
              updateCalls := [{ resource with file := none }],
              quarantineNotifications := [resource_id],
              setFileTypeCalls := [], initiateResourceGraphCalls := [] }
          else if optStrTruthy resource.file_type = false then
            { outcome := .ok (),
              quarantineCalls := [], updateCalls := [], quarantineNotifications := [],
              setFileTypeCalls := [(resource_id, detect_file_type resource)],
              initiateResourceGraphCalls := [resource_id] }
          else if validate_file_format resource then
            { outcome := .ok (),
              quarantineCalls := [], updateCalls := [], quarantineNotifications := [],
              setFileTypeCalls := [], initiateResourceGraphCalls := [resource_id] }
          else
            { outcome := .raised (.exn ("Invalid file format for resource " ++ resource_id)),
              quarantineCalls := [], updateCalls := [], quarantineNotifications := [],
              setFileTypeCalls := [], initiateResourceGraphCalls := [] }

/-! ## `VentilateResourceProcessing.execute` (`usecases.py`) -/

/-- Every observable effect of one `VentilateResourceProcessing.execute` call.
`webhookPosts` records the callback URLs POSTed to with a ready payload and
`updateCalls` the `update_resource` persists — the method body makes neither
kind of call; the only outbound call it makes when the resource exists is
`task_dispatch.send_quarantine_notification(resource.id)`. -/
structure VentilateResult where
  returned : List Bool
  quarantineNotifications : List String
  webhookPosts : List String
  updateCalls : List Resource
  deriving DecidableEq, Repr

/-- `VentilateResourceProcessing.execute`.  `dispatchResult` is the value the
awaited `send_quarantine_notification` call evaluates to, and `stored` is what
`get_resource_by_id resource_id` returns. -/
def ventilateResourceProcessing
    (dispatchResult : String → List Bool)
    (resource_id : String)
    (stored : Option Resource) : VentilateResult :=
  match stored with
  | none =>
      { returned := [], quarantineNotifications := [], webhookPosts := [],
        updateCalls := [] }
  | some resource =>
      { returned := dispatchResult resource.id,
        quarantineNotifications := [resource.id],
        webhookPosts := [], updateCalls := [] }

/-! ## `HttpxWebClient.send_resource_callbacks` (`webclient_repo.py`) -/

/-- Result of one `send_resource_callbacks` call: the list of per-URL booleans
it returns and the URLs POSTed to, in order. -/
structure SendCallbacksResult where
  returned : List Bool
  postedUrls : List String
  deriving DecidableEq, Repr

/-- `HttpxWebClient.send_resource_callbacks`.  `post` gives the success of the
single POST issued to a URL (`send_single_callback`). -/
def send_resource_callbacks (post : String → Bool) (resource : Resource) :
    SendCallbacksResult :=
  if optListTruthy resource.callback_urls = false then
    { returned := [], postedUrls := [] }
  else
    let urls := resource.callback_urls.getD []
    { returned := urls.map post, postedUrls := urls }

/-! ## `MockChunkingRepository.chunk_resource` (`tests/mock_repos.py`) -/

/-- Python string split on the two-character separator of two newlines: cut
at each non-overlapping occurrence, left to right. -/
def splitParas : List Char → List (List Char)
  | [] => [[]]
  | '\n' :: '\n' :: rest => [] :: splitParas rest
  | c :: rest =>
      match splitParas rest with
      | [] => [[c]]
      | p :: ps => (c :: p) :: ps

/-- The (ASCII) whitespace characters `str.strip` removes. -/
def pyIsSpace (c : Char) : Bool :=
  c == ' ' || c == '\t' || c == '\n' || c == '\r' || c == '\x0b' || c == '\x0c'

/-- Truthiness of `text.strip()`: the segment holds a non-whitespace char. -/
def stripTruthy (s : List Char) : Bool := s.any (fun c => !pyIsSpace c)

/-- `MockChunkingRepository.chunk_resource`: split the markdown on blank
lines, keep the segments whose `strip()` is truthy, and build one chunk per
kept segment whose `sequence` is the `enumerate` index of the segment. -/
def chunk_resource (resource_type : ResourceType) (resource : Resource) :
    List ResourceChunk :=
  if optStrTruthy resource.markdown_content = false then []
  else
    (splitParas (resource.markdown_content.getD "").data).enum.filterMap
      (fun seg =>
        if stripTruthy seg.2 then
          some { id := resource.id ++ "_chunk_" ++ toString seg.1,
                 resource_id := resource.id,
                 text := String.mk seg.2,
                 sequence := seg.1,
                 extract := String.mk seg.2,
                 metadata := some [("position", toString seg.1)] }
        else none)

/-! ## `ExtractPlainTextOfResource.execute` (`usecases.py`) -/

/-- Every observable effect of one `ExtractPlainTextOfResource.execute` call. -/
structure ExtractResult where
  outcome : PyResult Unit
  updateCalls : List Resource
  chunkResourceTextCalls : List String
  deriving DecidableEq, Repr

/-- `ExtractPlainTextOfResource.execute`.  `extract_markdown_content` is the
file-manager port: `.error e` models the port raising with message `e`. -/
def extractPlainTextOfResource
    (extract_markdown_content : Resource → Except String Resource)
    (resource_id : String)
    (stored : Option Resource) : ExtractResult :=
  match stored with
  | none =>
      { outcome := .raised (.exn
          ("Unable to extract text from resource (not found " ++ resource_id ++ ")")),
        updateCalls := [], chunkResourceTextCalls := [] }
  | some resource =>
      match resource.markdown_content with
      | some _ =>
          -- `if resource.markdown_content is not None`: skip straight to the enqueue
          { outcome := .ok (), updateCalls := [], chunkResourceTextCalls := [resource_id] }
      | none =>
          if optStrTruthy resource.file_type = false then
            { outcome := .raised (.exn
                ("File type not determined for resource " ++ resource_id)),
              updateCalls := [], chunkResourceTextCalls := [] }
          else
            match extract_markdown_content resource with
            | .error e =>
                { outcome := .raised (.exn
                    ("Failed to extract text from resource " ++ resource_id ++ ": " ++ e)),
                  updateCalls := [], chunkResourceTextCalls := [] }
            | .ok updated =>
                { outcome := .ok (),
                  updateCalls := [updated],
                  chunkResourceTextCalls := [resource_id] }

/-! ## `InitiateSearchRequest.execute` (`usecases.py`) -/

/-- `interfaces.responses.InitiateSearchResponse`. -/
structure InitiateSearchResponse where
  success : Bool
  search_url : String
  message : String
  deriving DecidableEq, Repr

/-- Every observable effect of one `InitiateSearchRequest.execute` call.
`vectoriseEnqueues` records enqueues of a `VectoriseTheSearchQuery` task —
the method never makes one; when the request exists its only dispatch call is
`task_repo.send_quarantine_notification(search_id)`. -/
structure InitiateSearchResult where
  response : InitiateSearchResponse
  quarantineNotifications : List String
  vectoriseEnqueues : List String
  deriving DecidableEq, Repr

/-- `InitiateSearchRequest.execute`.  `dispatchFailure` is `some e` when the
dispatch call raises with message `e`, and `stored` is what
`get_search_request search_id` returns. -/
def initiateSearchRequest
    (dispatchFailure : Option String)
    (search_id : String)
    (stored : Option SearchRequest) : InitiateSearchResult :=
  match stored with
  | none =>
      { response := { success := false, search_url := "/search/" ++ search_id,
                      message := "Search request not found" },
        quarantineNotifications := [], vectoriseEnqueues := [] }
  | some _ =>
      match dispatchFailure with
      | none =>
          { response := { success := true, search_url := "/search/" ++ search_id,
                          message := "Search request processing initiated" },
            quarantineNotifications := [search_id], vectoriseEnqueues := [] }
      | some e =>
          { response := { success := false, search_url := "/search/" ++ search_id,
                          message := "Task dispatch failed: " ++ e },
            quarantineNotifications := [search_id], vectoriseEnqueues := [] }

/-! ## `IdentifyRelatedContent.execute` (`usecases.py`) -/

/-- `interfaces.responses.IdentifyRelatedContentResponse` (`related_chunks`
defaults to `None`). -/
structure IdentifyRelatedContentResponse where
  success : Bool
  search_id : String
  search_url : String
  message : String
  related_chunks : Option (List ResourceChunk) := none
  deriving DecidableEq, Repr

/-- `IdentifyRelatedContent.execute`.  The graph port is read twice (before
and after scoring), so both reads are passed in; `.error` on a port models it
raising. -/
def identifyRelatedContent
    (get_relevant_chunks : String → List ResourceChunk)
    (generate_embedding : String → Except String (List Rat))
    (calculate_chunk_similarities : List ResourceChunk → List Rat → Except String (List Rat))
    (get_relevant_chunks_rescored : String → List ResourceChunk)
    (query_id : String)
    (stored : Option SearchRequest) : IdentifyRelatedContentResponse :=
  match stored with
  | none =>
      { success := false, search_id := query_id,
        search_url := "/search/" ++ query_id,
        message := "Search request not found" }
  | some search_request =>
      let chunks := get_relevant_chunks query_id
      if chunks.isEmpty then
        { success := false, search_id := query_id,
          search_url := "/search/" ++ query_id,
          message := "No relevant content found" }
      else
        match generate_embedding search_request.query with
        | .error e =>
            { success := false, search_id := query_id,
              search_url := "/search/" ++ query_id,
              message := "Similarity calculation failed: " ++ e }
        | .ok query_embedding =>
            match calculate_chunk_similarities chunks query_embedding with
            | .error e =>
                { success := false, search_id := query_id,
                  search_url := "/search/" ++ query_id,
                  message := "Similarity calculation failed: " ++ e }
            | .ok _ =>
                { success := true, search_id := query_id,
                  search_url := "/search/" ++ query_id,
                  message := "Successfully identified related content",
                  related_chunks := some (get_relevant_chunks_rescored query_id) }

/-! ## `PostNewResourceToCollection.execute` (`usecases.py`) -/

/-- `interfaces.requests.ResourceUploadRequest`. -/
structure ResourceUploadRequest where
  collection_id : String
  resource_type_id : String
  file_name : String
  file_content : List Nat
  name : Option String
  webhooks : List String := []
  deriving DecidableEq, Repr

/-- The arguments of one `resource_repository.create_new_resource` call. -/
structure CreateResourceArgs where
  collection_id : String
  resource_type_id : String
  name : Option String
  file_name : String
  file : List Nat
  callback_urls : Option (List String)
  deriving DecidableEq, Repr

/-- `interfaces.responses.ResourceUploadResponse` (status as its string). -/
structure ResourceUploadResponse where
  status : String
  resource_id : String
  resource_url : String
  message : String
  webhooks : List String
  deriving DecidableEq, Repr

/-- Every observable effect of one `PostNewResourceToCollection.execute`
call: its outcome, the `create_new_resource` calls and the
`initiate_processing_of_new_resource` enqueues. -/
structure PostNewResourceResult where
  result : PyResult ResourceUploadResponse
  createCalls : List CreateResourceArgs
  initiateProcessingCalls : List String
  deriving DecidableEq, Repr

/-- `PostNewResourceToCollection.execute`.  The collection and resource-type
lookups and the `create_new_resource` operation of the store are passed in as port
behaviours. -/
def postNewResourceToCollection
    (get_collection_by_id : String → Option Collection)
    (get_resource_type_by_id : String → Option ResourceType)
    (create_new_resource : CreateResourceArgs → Resource)
    (new_resource : ResourceUploadRequest) : PostNewResourceResult :=
  match get_collection_by_id new_resource.collection_id with
  | none =>
      { result := .raised (.valueError
          ("Collection " ++ new_resource.collection_id ++ " not found")),
        createCalls := [], initiateProcessingCalls := [] }
  | some collection =>
      match get_resource_type_by_id new_resource.resource_type_id with
      | none =>
          -- `if not resource_type or ...` with `type_name` falling back to the id
          { result := .raised (.valueError
              ("Resource type " ++ new_resource.resource_type_id ++
               " not allowed in collection " ++ collection.name)),
            createCalls := [], initiateProcessingCalls := [] }
      | some resource_type =>
          if resource_type ∈ collection.resource_types then
            if new_resource.resource_type_id ∈ collection.resource_types.map (·.id) then
              let args : CreateResourceArgs :=
                { collection_id := new_resource.collection_id,
                  resource_type_id := new_resource.resource_type_id,
                  name := new_resource.name,
                  file_name := new_resource.file_name,
                  file := new_resource.file_content,
                  callback_urls :=
                    if new_resource.webhooks.isEmpty then none
                    else some new_resource.webhooks }
              let resource := create_new_resource args
              { result := .ok
                  { status := "pending",
                    resource_id := resource.id,
                    resource_url := "http://localhost/resources/" ++ resource.id,
                    message := "Resource uploaded successfully. Processing initiated.",
                    webhooks := resource.callback_urls.getD [] },
                createCalls := [args],
                initiateProcessingCalls := [resource.id] }
            else
              { result := .raised (.valueError
                  ("Resource type " ++ new_resource.resource_type_id ++
                   " not allowed in collection.")),
                createCalls := [], initiateProcessingCalls := [] }
          else
            { result := .raised (.valueError
                ("Resource type " ++ resource_type.name ++
                 " not allowed in collection " ++ collection.name)),
              createCalls := [], initiateProcessingCalls := [] }

/-! ## `PostNewSubscription.execute` (`usecases.py`) -/

/-- `interfaces.requests.NewSubscriptionRequest` (status as its string). -/
structure NewSubscriptionRequest where
  name : String
  resource_type_ids : List String
  status : String
  deriving DecidableEq, Repr

/-- `interfaces.responses.ResourceTypeResponse`. -/
structure ResourceTypeResponse where
  id : String
  name : String
  tooltip : String
  deriving DecidableEq, Repr

/-- `interfaces.responses.SubscriptionResponse`. -/
structure SubscriptionResponse where
  id : String
  name : String
  status : String
  resource_types : List ResourceTypeResponse
  deriving DecidableEq, Repr

/-- The arguments of one `subscription_repo.create_new_subscription` call. -/
structure CreateSubscriptionArgs where
  name : String
  resource_type_ids : List String
  status : String
  deriving DecidableEq, Repr

/-- What `PostNewSubscription.execute` returns: the literal `False` of its
"cowardly refusal" branch or a `SubscriptionResponse`. -/
inductive PostNewSubscriptionValue where
  | falseValue
  | response (r : SubscriptionResponse)
  deriving DecidableEq, Repr

/-- Every observable effect of one `PostNewSubscription.execute` call. -/
structure PostNewSubscriptionResult where
  value : PostNewSubscriptionValue
  createCalls : List CreateSubscriptionArgs
  deriving DecidableEq, Repr

/-- The validation loop at the top of `PostNewSubscription.execute`: `false`
as soon as one id in order fails to resolve. -/
def allResourceTypeIdsResolve
    (get_resource_type_by_id : String → Option ResourceType) :
    List String → Bool
  | [] => true
  | rtid :: rest =>
      if (get_resource_type_by_id rtid).isNone then false
      else allResourceTypeIdsResolve get_resource_type_by_id rest

/-- `PostNewSubscription.execute`, with the resource-type lookup and the
`create_new_subscription` operation of the store passed in as port behaviours. -/
def postNewSubscription
    (get_resource_type_by_id : String → Option ResourceType)
    (create_new_subscription : CreateSubscriptionArgs → Subscription)
    (new_subscription : NewSubscriptionRequest) : PostNewSubscriptionResult :=
  if allResourceTypeIdsResolve get_resource_type_by_id
      new_subscription.resource_type_ids = false then
    { value := .falseValue, createCalls := [] }
  else
    let args : CreateSubscriptionArgs :=
      { name := new_subscription.name,
        resource_type_ids := new_subscription.resource_type_ids,
        status := new_subscription.status }
    let subscription := create_new_subscription args
    { value := .response
        { id := subscription.id,
          name := subscription.name,
          status := if subscription.is_active then "active" else "inactive",
          resource_types := subscription.resource_types.map
            (fun rt => { id := rt.id, name := rt.name, tooltip := rt.tooltip }) },
      createCalls := [args] }

/-! ## Theorems for the claims -/

/-- C1: for every resource whose antivirus scan returns INFECTED (and which
exists with a non-empty file, the preconditions the method checks first),
`InitiateProcessingOfNewResource.execute` quarantines the resource, sets its
file to null, persists the updated resource, sends exactly one quarantine
notification, raises the virus-scan failure, and does not enqueue
`InitialiseResourceGraph`. -/
theorem initiate_processing_infected_quarantines_and_fails
    (scan : Resource → FileAnalysisResult)
    (detect : Resource → Option String)
    (validate : Resource → Bool)
    (resource_id : String) (r : Resource) (f : List Nat)
    (hf : r.file = some f) (hlen : 0 < f.length)
    (hscan : scan r = .INFECTED) :
    initiateProcessingOfNewResource scan detect validate resource_id (some r) =
      { outcome := .raised (.exn ("Resource " ++ resource_id ++ " failed virus scan")),
        quarantineCalls := [r.id],
        updateCalls := [{ r with file := none }],
        quarantineNotifications := [resource_id],
        setFileTypeCalls := [],
        initiateResourceGraphCalls := [] } := by
  simp [initiateProcessingOfNewResource, hf, hscan, Nat.pos_iff_ne_zero.mp hlen]

/-- Witness for C1 at a concrete infected resource. -/
theorem initiate_processing_infected_witness :
    initiateProcessingOfNewResource (fun _ => .INFECTED) (fun _ => some "text/plain")
      (fun _ => true) "test-resource-1"
      (some { id := "test-resource-1", collection_id := "test-collection",
              resource_type_id := some "test-type", name := some "Test Resource",
              file_name := "test.txt", file_type := none, file := some [86, 73] }) =
      { outcome := .raised (.exn ("Resource " ++ "test-resource-1" ++ " failed virus scan")),
        quarantineCalls := ["test-resource-1"],
        updateCalls := [{ id := "test-resource-1", collection_id := "test-collection",
                          resource_type_id := some "test-type", name := some "Test Resource",
                          file_name := "test.txt", file_type := none, file := none }],
        quarantineNotifications := ["test-resource-1"],
        setFileTypeCalls := [],
        initiateResourceGraphCalls := [] } :=
  initiate_processing_infected_quarantines_and_fails
    (fun _ => .INFECTED) (fun _ => some "text/plain") (fun _ => true)
    "test-resource-1" _ [86, 73] rfl (by decide) rfl

/-- C3 counterexample: at a concrete resource whose scan returns ERROR, the
method does not fail — it succeeds, detects and stores the file type, and
enqueues `InitialiseResourceGraph`, contradicting the claim that an ERROR
scan fails transiently with no detection and no enqueue. -/
theorem initiate_processing_scan_error_counterexample :
    (initiateProcessingOfNewResource (fun _ => .ERROR) (fun _ => some "text/plain")
        (fun _ => true) "r3"
        (some { id := "r3", collection_id := "c1", resource_type_id := some "t1",
                name := none, file_name := "f.bin", file_type := none,
                file := some [1, 2] })).outcome = .ok () ∧
    (initiateProcessingOfNewResource (fun _ => .ERROR) (fun _ => some "text/plain")
        (fun _ => true) "r3"
        (some { id := "r3", collection_id := "c1", resource_type_id := some "t1",
                name := none, file_name := "f.bin", file_type := none,
                file := some [1, 2] })).initiateResourceGraphCalls = ["r3"] ∧
    (initiateProcessingOfNewResource (fun _ => .ERROR) (fun _ => some "text/plain")
        (fun _ => true) "r3"
        (some { id := "r3", collection_id := "c1", resource_type_id := some "t1",
                name := none, file_name := "f.bin", file_type := none,
                file := some [1, 2] })).setFileTypeCalls = [("r3", some "text/plain")] ∧
    (initiateProcessingOfNewResource (fun _ => .ERROR) (fun _ => some "text/plain")
        (fun _ => true) "r3"
        (some { id := "r3", collection_id := "c1", resource_type_id := some "t1",
                name := none, file_name := "f.bin", file_type := none,
                file := some [1, 2] })).quarantineCalls = [] :=
  ⟨rfl, rfl, rfl, rfl⟩

/-- C3 amended: a scan result of ERROR is not a distinct failure path — the
method behaves exactly as it does for CLEAN (no quarantine; it proceeds to
file-type detection or validation and, on success, enqueues
`InitialiseResourceGraph`). -/
theorem initiate_processing_scan_error_treated_as_clean
    (scan : Resource → FileAnalysisResult)
    (detect : Resource → Option String)
    (validate : Resource → Bool)
    (resource_id : String) (r : Resource)
    (hscan : scan r = .ERROR) :
    initiateProcessingOfNewResource scan detect validate resource_id (some r) =
      initiateProcessingOfNewResource (fun _ => .CLEAN) detect validate resource_id (some r) ∧
    (initiateProcessingOfNewResource scan detect validate resource_id (some r)).quarantineCalls
      = [] := by
  constructor
  · simp [initiateProcessingOfNewResource, hscan]
  · simp only [initiateProcessingOfNewResource, hscan]
    cases r.file with
    | none => rfl
    | some f =>
        simp only [apply_ite InitiateProcessingResult.quarantineCalls]
        split_ifs <;> simp_all

/-- Witness for C3 at a concrete ERROR-scanned resource. -/
theorem initiate_processing_scan_error_witness :
    initiateProcessingOfNewResource (fun _ => .ERROR) (fun _ => some "text/plain")
      (fun _ => true) "r4"
      (some { id := "r4", collection_id := "c1", resource_type_id := some "t1",
              name := none, file_name := "f.bin", file_type := some "text/plain",
              file := some [9] }) =
    initiateProcessingOfNewResource (fun _ => .CLEAN) (fun _ => some "text/plain")
      (fun _ => true) "r4"
      (some { id := "r4", collection_id := "c1", resource_type_id := some "t1",
              name := none, file_name := "f.bin", file_type := some "text/plain",
              file := some [9] }) :=
  (initiate_processing_scan_error_treated_as_clean
    (fun _ => .ERROR) (fun _ => some "text/plain") (fun _ => true) "r4" _ rfl).1

/-- C2 (code bug record): at a concrete resource with two callback URLs, one
`VentilateResourceProcessing.execute` call issues no webhook POST and no
resource update; its only outbound call is a single
`send_quarantine_notification` on the task-dispatch port. -/
theorem ventilate_resource_processing_dispatches_quarantine_notification :
    ventilateResourceProcessing (fun _ => []) "test-resource-1"
      (some { id := "test-resource-1", collection_id := "test-collection",
              resource_type_id := some "test-type", name := some "Test Resource",
              file_name := "test.txt", file_type := some "text/plain",
              file := some [84, 101], markdown_content := some "Test content",
              callback_urls := some ["http://callback1.test", "http://callback2.test"] }) =
      { returned := [], quarantineNotifications := ["test-resource-1"],
        webhookPosts := [], updateCalls := [] } :=
  rfl

/-! ## Chunk sequence lemmas (C4) -/

/-- The `enumerate` indices of the segments the chunker keeps. -/
def keptIndices (l : List (List Char)) : List Nat :=
  l.enum.filterMap (fun p => if stripTruthy p.2 then some p.1 else none)

lemma chunk_resource_map_sequence (rt : ResourceType) (r : Resource) :
    (chunk_resource rt r).map (fun c => c.sequence) =
      if optStrTruthy r.markdown_content = false then []
      else keptIndices (splitParas (r.markdown_content.getD "").data) := by
  cases hb : optStrTruthy r.markdown_content with
  | false => simp [chunk_resource, hb]
  | true =>
      unfold chunk_resource keptIndices
      rw [hb, if_neg (by decide : ¬ (true = false)),
        if_neg (by decide : ¬ (true = false)), List.map_filterMap]
      refine List.filterMap_congr (fun p hp => ?_)
      by_cases hsp : stripTruthy p.2 <;> simp [hsp]

lemma filterMap_kept_sublist (ps : List (Nat × List Char)) :
    List.Sublist
      (ps.filterMap (fun p => if stripTruthy p.2 then some p.1 else none))
      (ps.map Prod.fst) := by
  induction ps with
  | nil => simp
  | cons p ps ih =>
      by_cases hp : stripTruthy p.2
      · simpa [hp] using ih.cons₂ p.1
      · simpa [hp] using ih.cons p.1

lemma keptIndices_sublist (l : List (List Char)) :
    List.Sublist (keptIndices l) (List.range l.length) := by
  have h := filterMap_kept_sublist l.enum
  rwa [List.enum_map_fst] at h

lemma keptIndices_pairwise (l : List (List Char)) :
    List.Pairwise (· < ·) (keptIndices l) :=
  (List.pairwise_lt_range l.length).sublist (keptIndices_sublist l)

lemma filterMap_kept_all (ps : List (Nat × List Char))
    (h : ∀ p ∈ ps, stripTruthy p.2 = true) :
    ps.filterMap (fun p => if stripTruthy p.2 then some p.1 else none)
      = ps.map Prod.fst := by
  induction ps with
  | nil => simp
  | cons p ps ih =>
      have hp := h p (List.mem_cons_self p ps)
      simp only [List.filterMap_cons, hp, if_true, List.map_cons]
      rw [ih (fun q hq => h q (List.mem_cons_of_mem p hq))]

lemma keptIndices_all_kept (l : List (List Char))
    (h : ∀ seg ∈ l, stripTruthy seg = true) :
    keptIndices l = List.range l.length := by
  unfold keptIndices
  rw [filterMap_kept_all _ (fun p hp => h p.2 (List.snd_mem_of_mem_enum hp)),
    List.enum_map_fst]

/-- C4 counterexample: on the markdown "a\n\n\n\nb" — whose middle
double-newline-separated segment is empty — the chunker assigns the
sequences 0 and 2, which is not the gap-free 0..n-1 the claim requires. -/
theorem chunk_resource_gapped_sequences_counterexample :
    ((chunk_resource { id := "test-type", name := "T", tooltip := "" }
        { id := "rg", collection_id := "c1", resource_type_id := some "test-type",
          name := none, file_name := "g.md", file_type := some "text/markdown",
          file := some [97], markdown_content := some "a\n\n\n\nb" }).map
      (fun c => c.sequence)) = [0, 2] ∧
    ¬ (((chunk_resource { id := "test-type", name := "T", tooltip := "" }
        { id := "rg", collection_id := "c1", resource_type_id := some "test-type",
          name := none, file_name := "g.md", file_type := some "text/markdown",
          file := some [97], markdown_content := some "a\n\n\n\nb" }).map
      (fun c => c.sequence)) =
      List.range ((chunk_resource { id := "test-type", name := "T", tooltip := "" }
        { id := "rg", collection_id := "c1", resource_type_id := some "test-type",
          name := none, file_name := "g.md", file_type := some "text/markdown",
          file := some [97], markdown_content := some "a\n\n\n\nb" }).length)) := by
  constructor
  · rfl
  · decide

/-- C4 amended: the chunk sequences of any resource are strictly increasing
(hence duplicate-free), and they are exactly 0..n-1 whenever every
double-newline-separated segment of the markdown contains a non-whitespace
character (the original claim fails when a segment is empty or
whitespace-only: such segments are skipped but their index is consumed). -/
theorem chunk_resource_sequences_strictly_increasing (rt : ResourceType)
    (r : Resource) :
    List.Pairwise (· < ·) ((chunk_resource rt r).map (fun c => c.sequence)) ∧
    ((∀ seg ∈ splitParas (r.markdown_content.getD "").data, stripTruthy seg = true) →
      (chunk_resource rt r).map (fun c => c.sequence) =
        List.range ((chunk_resource rt r).length)) := by
  have hms := chunk_resource_map_sequence rt r
  constructor
  · rw [hms]
    by_cases h : optStrTruthy r.markdown_content = false
    · simp [h]
    · simp [h, keptIndices_pairwise]
  · intro hall
    have hlen : (chunk_resource rt r).length
        = ((chunk_resource rt r).map (fun c => c.sequence)).length := by
      simp
    rw [hlen, hms]
    by_cases h : optStrTruthy r.markdown_content = false
    · simp [h]
    · simp only [h, if_false, Bool.false_eq_true, reduceIte]
      rw [keptIndices_all_kept _ hall]
      simp

/-- Witness for C4 at a concrete two-paragraph markdown. -/
theorem chunk_resource_sequences_witness :
    (chunk_resource { id := "test-type", name := "T", tooltip := "" }
        { id := "rw", collection_id := "c1", resource_type_id := some "test-type",
          name := none, file_name := "w.md", file_type := some "text/markdown",
          file := some [112], markdown_content := some "para one\n\npara two" }).map
      (fun c => c.sequence) =
    List.range ((chunk_resource { id := "test-type", name := "T", tooltip := "" }
        { id := "rw", collection_id := "c1", resource_type_id := some "test-type",
          name := none, file_name := "w.md", file_type := some "text/markdown",
          file := some [112], markdown_content := some "para one\n\npara two" }).length) :=
  (chunk_resource_sequences_strictly_increasing _ _).2 (by decide)

/-- C5 counterexample: with the callback list ["http://a","http://a","http://b"],
`send_resource_callbacks` POSTs three times — once per list entry including
the duplicate — not once per distinct URL. -/
theorem send_resource_callbacks_duplicates_counterexample :
    (send_resource_callbacks (fun _ => true)
        { id := "rc", collection_id := "c1", resource_type_id := some "t1",
          name := none, file_name := "c.md", file_type := some "text/markdown",
          file := some [1],
          callback_urls := some ["http://a", "http://a", "http://b"] }).postedUrls
      = ["http://a", "http://a", "http://b"] ∧
    ((send_resource_callbacks (fun _ => true)
        { id := "rc", collection_id := "c1", resource_type_id := some "t1",
          name := none, file_name := "c.md", file_type := some "text/markdown",
          file := some [1],
          callback_urls := some ["http://a", "http://a", "http://b"] }).postedUrls).dedup
      = ["http://a", "http://b"] ∧
    ¬ ((send_resource_callbacks (fun _ => true)
        { id := "rc", collection_id := "c1", resource_type_id := some "t1",
          name := none, file_name := "c.md", file_type := some "text/markdown",
          file := some [1],
          callback_urls := some ["http://a", "http://a", "http://b"] }).postedUrls.length
      = ((send_resource_callbacks (fun _ => true)
        { id := "rc", collection_id := "c1", resource_type_id := some "t1",
          name := none, file_name := "c.md", file_type := some "text/markdown",
          file := some [1],
          callback_urls := some ["http://a", "http://a", "http://b"] }).postedUrls).dedup.length) := by
  refine ⟨rfl, by decide, by decide⟩

/-- C5 amended: the fan-out POSTs once per entry of the callback list in
order, duplicates included (and not at all when the list is absent or
empty); it performs no deduplication. -/
theorem send_resource_callbacks_posts_every_listed_url
    (post : String → Bool) (resource : Resource) :
    (send_resource_callbacks post resource).postedUrls
      = resource.callback_urls.getD [] ∧
    (send_resource_callbacks post resource).returned
      = (resource.callback_urls.getD []).map post := by
  cases h : resource.callback_urls with
  | none => simp [send_resource_callbacks, optListTruthy, h]
  | some l =>
      cases l with
      | nil => simp [send_resource_callbacks, optListTruthy, h]
      | cons a t => simp [send_resource_callbacks, optListTruthy, h]

/-- C6 counterexample: at a concrete saved search request,
`InitiateSearchRequest.execute` succeeds but enqueues no
`VectoriseTheSearchQuery` task — its one dispatch call is
`send_quarantine_notification(search_id)`. -/
theorem initiate_search_request_counterexample :
    (initiateSearchRequest none "search-1"
        (some { id := "search-1", query := "test query",
                collection_id := "test-collection" })).vectoriseEnqueues = [] ∧
    (initiateSearchRequest none "search-1"
        (some { id := "search-1", query := "test query",
                collection_id := "test-collection" })).quarantineNotifications
      = ["search-1"] ∧
    (initiateSearchRequest none "search-1"
        (some { id := "search-1", query := "test query",
                collection_id := "test-collection" })).response.success = true :=
  ⟨rfl, rfl, rfl⟩

/-- C6 amended: when the search request exists and dispatch does not raise,
the use case returns a success response after exactly one task-dispatch call
— `send_quarantine_notification(search_id)`, not a `VectoriseTheSearchQuery`
enqueue; when the request is missing it returns a failure response and makes
no dispatch call. -/
theorem initiate_search_request_behaviour
    (d : Option String) (search_id : String) (sreq : SearchRequest) :
    initiateSearchRequest none search_id (some sreq) =
      { response := { success := true, search_url := "/search/" ++ search_id,
                      message := "Search request processing initiated" },
        quarantineNotifications := [search_id], vectoriseEnqueues := [] } ∧
    initiateSearchRequest d search_id none =
      { response := { success := false, search_url := "/search/" ++ search_id,
                      message := "Search request not found" },
        quarantineNotifications := [], vectoriseEnqueues := [] } :=
  ⟨rfl, rfl⟩

/-- C7 counterexample: at a concrete search whose candidate retrieval yields
no chunks, `IdentifyRelatedContent.execute` returns a failure response
(success is false, message "No relevant content found"), not a successful
ready/empty result. -/
theorem identify_related_content_empty_counterexample :
    (identifyRelatedContent (fun _ => []) (fun _ => .ok []) (fun _ _ => .ok [])
        (fun _ => []) "search-9"
        (some { id := "search-9", query := "q", collection_id := "c" })).success
      = false ∧
    (identifyRelatedContent (fun _ => []) (fun _ => .ok []) (fun _ _ => .ok [])
        (fun _ => []) "search-9"
        (some { id := "search-9", query := "q", collection_id := "c" })).message
      = "No relevant content found" ∧
    (identifyRelatedContent (fun _ => []) (fun _ => .ok []) (fun _ _ => .ok [])
        (fun _ => []) "search-9"
        (some { id := "search-9", query := "q", collection_id := "c" })).related_chunks
      = none :=
  ⟨rfl, rfl, rfl⟩

/-- C7 amended: for every search request whose candidate chunk retrieval
returns no chunks, `IdentifyRelatedContent.execute` returns (without raising)
the failure response with success false, message "No relevant content found"
and no related chunks — it does not mark the search ready with an empty
results list. -/
theorem identify_related_content_no_chunks_failure_response
    (get_relevant_chunks : String → List ResourceChunk)
    (generate_embedding : String → Except String (List Rat))
    (calculate_chunk_similarities :
      List ResourceChunk → List Rat → Except String (List Rat))
    (get_relevant_chunks_rescored : String → List ResourceChunk)
    (query_id : String) (sreq : SearchRequest)
    (h : get_relevant_chunks query_id = []) :
    identifyRelatedContent get_relevant_chunks generate_embedding
        calculate_chunk_similarities get_relevant_chunks_rescored
        query_id (some sreq) =
      { success := false, search_id := query_id,
        search_url := "/search/" ++ query_id,
        message := "No relevant content found", related_chunks := none } := by
  simp [identifyRelatedContent, h]

/-- Witness for C7 at a concrete empty candidate set. -/
theorem identify_related_content_no_chunks_witness :
    identifyRelatedContent (fun _ => []) (fun _ => .ok []) (fun _ _ => .ok [])
        (fun _ => []) "search-2"
        (some { id := "search-2", query := "any", collection_id := "c2" }) =
      { success := false, search_id := "search-2",
        search_url := "/search/" ++ "search-2",
        message := "No relevant content found", related_chunks := none } :=
  identify_related_content_no_chunks_failure_response
    (fun _ => []) (fun _ => .ok []) (fun _ _ => .ok []) (fun _ => [])
    "search-2" { id := "search-2", query := "any", collection_id := "c2" } rfl

/-- C8 counterexample: at a concrete resource whose extraction raises,
`ExtractPlainTextOfResource.execute` performs no resource update at all — in
particular it does not persist a failed status — and re-raises a wrapped
exception; it also does not enqueue `ChunkResourceText`. -/
theorem extract_plain_text_failure_counterexample :
    (extractPlainTextOfResource (fun _ => .error "Extraction failed")
        "test-resource-1"
        (some { id := "test-resource-1", collection_id := "test-collection",
                resource_type_id := some "test-type", name := some "Test Resource",
                file_name := "test.txt", file_type := some "text/plain",
                file := some [84], markdown_content := none })).updateCalls = [] ∧
    (extractPlainTextOfResource (fun _ => .error "Extraction failed")
        "test-resource-1"
        (some { id := "test-resource-1", collection_id := "test-collection",
                resource_type_id := some "test-type", name := some "Test Resource",
                file_name := "test.txt", file_type := some "text/plain",
                file := some [84], markdown_content := none })).outcome
      = .raised (.exn ("Failed to extract text from resource " ++ "test-resource-1"
          ++ ": " ++ "Extraction failed")) ∧
    (extractPlainTextOfResource (fun _ => .error "Extraction failed")
        "test-resource-1"
        (some { id := "test-resource-1", collection_id := "test-collection",
                resource_type_id := some "test-type", name := some "Test Resource",
                file_name := "test.txt", file_type := some "text/plain",
                file := some [84],
                markdown_content := none })).chunkResourceTextCalls = [] :=
  ⟨rfl, rfl, rfl⟩

/-- C8 amended: for a stored resource with no markdown yet and a truthy file
type, `ExtractPlainTextOfResource.execute` on extraction failure raises a
wrapped exception recording the reason in its message, performing no
resource update (so no failed status is persisted) and no
`ChunkResourceText` enqueue; on success it persists the updated resource and
enqueues `ChunkResourceText`. -/
theorem extract_plain_text_behaviour
    (extract_markdown_content : Resource → Except String Resource)
    (resource_id : String) (r : Resource)
    (hmd : r.markdown_content = none)
    (hft : optStrTruthy r.file_type = true) :
    (∀ e, extract_markdown_content r = .error e →
      extractPlainTextOfResource extract_markdown_content resource_id (some r) =
        { outcome := .raised (.exn ("Failed to extract text from resource "
            ++ resource_id ++ ": " ++ e)),
          updateCalls := [], chunkResourceTextCalls := [] }) ∧
    (∀ u, extract_markdown_content r = .ok u →
      extractPlainTextOfResource extract_markdown_content resource_id (some r) =
        { outcome := .ok (), updateCalls := [u],
          chunkResourceTextCalls := [resource_id] }) := by
  constructor <;> intro x hx <;> simp [extractPlainTextOfResource, hmd, hft, hx]

/-- Witness for C8 at a concrete failing extraction. -/
theorem extract_plain_text_witness :
    extractPlainTextOfResource (fun _ => .error "boom") "rX"
        (some { id := "rX", collection_id := "cX", resource_type_id := some "tX",
                name := none, file_name := "x.txt", file_type := some "text/plain",
                file := some [7], markdown_content := none }) =
      { outcome := .raised (.exn ("Failed to extract text from resource "
          ++ "rX" ++ ": " ++ "boom")),
        updateCalls := [], chunkResourceTextCalls := [] } :=
  (extract_plain_text_behaviour (fun _ => .error "boom") "rX"
    { id := "rX", collection_id := "cX", resource_type_id := some "tX",
      name := none, file_name := "x.txt", file_type := some "text/plain",
      file := some [7], markdown_content := none } rfl rfl).1 "boom" rfl

/-- C9: for every upload whose resource type id is not in the allowed set of
the target collection, `PostNewResourceToCollection.execute` fails with a
ValueError, creates no resource in the store, and enqueues no processing
task. -/
theorem post_new_resource_disallowed_type_rejected
    (get_collection_by_id : String → Option Collection)
    (get_resource_type_by_id : String → Option ResourceType)
    (create_new_resource : CreateResourceArgs → Resource)
    (req : ResourceUploadRequest) (collection : Collection)
    (hc : get_collection_by_id req.collection_id = some collection)
    (hna : req.resource_type_id ∉ collection.resource_types.map (·.id)) :
    (∃ m, (postNewResourceToCollection get_collection_by_id
        get_resource_type_by_id create_new_resource req).result
        = .raised (.valueError m)) ∧
    (postNewResourceToCollection get_collection_by_id
        get_resource_type_by_id create_new_resource req).createCalls = [] ∧
    (postNewResourceToCollection get_collection_by_id
        get_resource_type_by_id create_new_resource req).initiateProcessingCalls
      = [] := by
  unfold postNewResourceToCollection
  rw [hc]
  cases hrt : get_resource_type_by_id req.resource_type_id with
  | none => exact ⟨⟨_, rfl⟩, rfl, rfl⟩
  | some rt =>
      by_cases hm : rt ∈ collection.resource_types
      · simp only [hm, if_true, hna, if_false]
        exact ⟨⟨_, rfl⟩, by trivial, by trivial⟩
      · simp only [hm, if_false]
        exact ⟨⟨_, rfl⟩, by trivial, by trivial⟩

/-- Witness for C9 at a concrete disallowed resource type. -/
theorem post_new_resource_disallowed_type_witness :
    (∃ m, (postNewResourceToCollection
        (fun _ => some { id := "c1", subscription_id := "s1",
                         resource_types := [{ id := "t1", name := "T1", tooltip := "" }],
                         name := "C" })
        (fun _ => none)
        (fun _ => { id := "never", collection_id := "c1",
                    resource_type_id := some "t2", name := none,
                    file_name := "f", file_type := none, file := some [] })
        { collection_id := "c1", resource_type_id := "t2", file_name := "f.txt",
          file_content := [104, 105], name := none }).result
        = .raised (.valueError m)) ∧
    (postNewResourceToCollection
        (fun _ => some { id := "c1", subscription_id := "s1",
                         resource_types := [{ id := "t1", name := "T1", tooltip := "" }],
                         name := "C" })
        (fun _ => none)
        (fun _ => { id := "never", collection_id := "c1",
                    resource_type_id := some "t2", name := none,
                    file_name := "f", file_type := none, file := some [] })
        { collection_id := "c1", resource_type_id := "t2", file_name := "f.txt",
          file_content := [104, 105], name := none }).createCalls = [] ∧
    (postNewResourceToCollection
        (fun _ => some { id := "c1", subscription_id := "s1",
                         resource_types := [{ id := "t1", name := "T1", tooltip := "" }],
                         name := "C" })
        (fun _ => none)
        (fun _ => { id := "never", collection_id := "c1",
                    resource_type_id := some "t2", name := none,
                    file_name := "f", file_type := none, file := some [] })
        { collection_id := "c1", resource_type_id := "t2", file_name := "f.txt",
          file_content := [104, 105], name := none }).initiateProcessingCalls
      = [] :=
  post_new_resource_disallowed_type_rejected _ _ _ _
    { id := "c1", subscription_id := "s1",
      resource_types := [{ id := "t1", name := "T1", tooltip := "" }],
      name := "C" }
    rfl (by decide)

/-- The validation loop returns false whenever some listed id fails to
resolve. -/
lemma allResourceTypeIdsResolve_false_of_missing
    (get_resource_type_by_id : String → Option ResourceType)
    (ids : List String) (rtid : String)
    (hmem : rtid ∈ ids) (hg : get_resource_type_by_id rtid = none) :
    allResourceTypeIdsResolve get_resource_type_by_id ids = false := by
  induction ids with
  | nil => cases hmem
  | cons a t ih =>
      rcases List.mem_cons.mp hmem with h | h
      · subst h
        simp [allResourceTypeIdsResolve, hg]
      · by_cases ha : (get_resource_type_by_id a).isNone
        · simp [allResourceTypeIdsResolve, ha]
        · simp [allResourceTypeIdsResolve, ha, ih h]

/-- C10: for every new-subscription request in which some resource type id
does not resolve, `PostNewSubscription.execute` returns the literal `False`
(no response object, no exception) and calls `create_new_subscription` not at
all, leaving the subscription store unchanged. -/
theorem post_new_subscription_unresolvable_type_refused
    (get_resource_type_by_id : String → Option ResourceType)
    (create_new_subscription : CreateSubscriptionArgs → Subscription)
    (req : NewSubscriptionRequest) (rtid : String)
    (hmem : rtid ∈ req.resource_type_ids)
    (hg : get_resource_type_by_id rtid = none) :
    postNewSubscription get_resource_type_by_id create_new_subscription req =
      { value := .falseValue, createCalls := [] } := by
  simp [postNewSubscription,
    allResourceTypeIdsResolve_false_of_missing get_resource_type_by_id
      req.resource_type_ids rtid hmem hg]

/-- Witness for C10 at a concrete unresolvable resource type id. -/
theorem post_new_subscription_unresolvable_witness :
    postNewSubscription (fun _ => none)
        (fun _ => { id := "s1", name := "S", is_active := true,
                    resource_types := [], collections := [] })
        { name := "S", resource_type_ids := ["t1"], status := "active" } =
      { value := .falseValue, createCalls := [] } :=
  post_new_subscription_unresolvable_type_refused _ _ _ "t1" (by decide) rfl

end KnowledgeService
